import Mathlib

/-!
Verification development for the mqttgpio repository (yaleman/mqttgpio).

The repository bridges MQTT and GPIO pins: each configured device is a
`GPIOSwitch` that announces itself to Home Assistant over MQTT, reacts to
`ON`/`OFF` command payloads by driving a pin and re-announcing its state.

We embed the package sources (`src/mqttgpio/__init__.py`,
`src/mqttgpio/__main__.py`) and, where a claim cites it, the legacy flat
module (`src/mqttgpio.py`).  Side effects (pin actuation, MQTT publishes
and subscriptions, log calls) are modelled as an explicit event trace;
every method returns its updated object together with the list of events
it emitted, in emission order.  Log events record the format string of the
corresponding logging call; the interpolated arguments are abstracted away
since no claim depends on them.
-/

/-- One observable side effect of the program.  `pinOn`/`pinOff` are the
real-hardware actuation calls `self.pin_io.on()` / `self.pin_io.off()`;
`driveLow`/`driveHigh` are the mock-pin calls `self.pin_io.drive_low()` /
`self.pin_io.drive_high()`.  `stateSet` records the assignment
`self.state = state`.  `publish` records `client.publish(topic, payload, qos)`
and `sub` records `client_object.subscribe(topic)`. -/
inductive Event where
  | pinOn (pin : Nat)
  | pinOff (pin : Nat)
  | driveLow (pin : Nat)
  | driveHigh (pin : Nat)
  | stateSet (b : Bool)
  | publish (topic : String) (payload : String) (qos : Nat)
  | sub (topic : String)
  | logDebug (msg : String)
  | logInfo (msg : String)
  | logWarning (msg : String)
  | logError (msg : String)
  deriving DecidableEq, Repr

/-- The publish events of a trace, in order. -/
def publishes (t : List Event) : List Event :=
  t.filter fun e => match e with
    | Event.publish _ _ _ => true
    | _ => false

/-- The subscribe events of a trace, in order. -/
def subscribes (t : List Event) : List Event :=
  t.filter fun e => match e with
    | Event.sub _ => true
    | _ => false

/-- The logical levels commanded to the pin by a trace, in order.
In `_set_state` the `state = True` branch calls `pin_io.on()` on real
hardware and `pin_io.drive_low()` on mock pins (the mock polarity is
inverted in the source); both are the actuation for logical ON, so both
map to `true` here, and dually for the `state = False` branch. -/
def drivenLevels (t : List Event) : List Bool :=
  t.filterMap fun e => match e with
    | Event.pinOn _ => some true
    | Event.pinOff _ => some false
    | Event.driveLow _ => some true
    | Event.driveHigh _ => some false
    | _ => none

/-- `json.dumps` restricted to the flat string-valued objects this program
builds: Python emits the pairs in insertion order as
`\x7b"k1": "v1", "k2": "v2"\x7d` (default separators).  None of the keys or
values the program uses contain characters that `json.dumps` escapes. -/
def jsonDumpsFlat (kvs : List (String × String)) : String :=
  "\x7b" ++ String.intercalate ", "
    (kvs.map fun kv => "\"" ++ kv.1 ++ "\": \"" ++ kv.2 ++ "\"") ++ "\x7d"

/-- Python byte-string literals as byte lists: `b"ON"`. -/
def bON : List Nat := [79, 78]

/-- `b"OFF"`. -/
def bOFF : List Nat := [79, 70, 70]

/-- `b"TOGGLE"`. -/
def bTOGGLE : List Nat := [84, 79, 71, 71, 76, 69]

/-- `b"on"`. -/
def bLowerOn : List Nat := [111, 110]

/-- The `GPIOSwitch` object of `src/mqttgpio/__init__.py`: the fields set
in `__init__` that the embedded methods read.  `client` and `logger` are
represented by the event trace; the pin object is represented by its pin
number plus the `mock_pins` flag that selects which driver calls are made. -/
structure GPIOSwitch where
  name : String
  device_class : String
  mqtt_qos : Nat
  mock_pins : Bool
  pin : Nat
  state : Bool
  deriving DecidableEq, Repr

namespace GPIOSwitch

/-- `str_state`: returns the state in the home assistant version. -/
def str_state (s : GPIOSwitch) : String :=
  if s.state then "ON" else "OFF"

/-- `config_topic`: returns the config topic. -/
def config_topic (s : GPIOSwitch) : String :=
  "homeassistant/" ++ s.device_class ++ "/" ++ s.name ++ "/config"

/-- `state_topic`: returns the state topic as a string. -/
def state_topic (s : GPIOSwitch) : String :=
  s.name ++ "/state"

/-- `command_topic`: returns the command topic as a string. -/
def command_topic (s : GPIOSwitch) : String :=
  s.name ++ "/cmnd"

/-- `_publish`: publishes a message via the shared client at the
switch's QoS. -/
def _publish (s : GPIOSwitch) (topic : String) (payload : String) : List Event :=
  [Event.publish topic payload s.mqtt_qos]

/-- The JSON payload `announce_config` publishes. -/
def config_payload (s : GPIOSwitch) : String :=
  jsonDumpsFlat
    [ ("name", s.name)
    , ("state_topic", s.state_topic)
    , ("command_topic", s.command_topic)
    , ("val_tpl", "\x7b\x7bvalue_json.POWER\x7d\x7d") ]

/-- `announce_config`: sends the MQTT message to configure home assistant. -/
def announce_config (s : GPIOSwitch) : List Event :=
  Event.logDebug "%s.announce_config(%s)" :: s._publish s.config_topic s.config_payload

/-- The JSON payload `announce_state` publishes. -/
def state_payload (s : GPIOSwitch) : String :=
  jsonDumpsFlat [("POWER", s.str_state)]

/-- `announce_state`: sends the MQTT message about the current state. -/
def announce_state (s : GPIOSwitch) : List Event :=
  Event.logDebug "%s.announce_state(%s)" :: s._publish s.state_topic s.state_payload

/-- `_set_state`: drives the pin (mock pins via `drive_low`/`drive_high`,
real pins via `on`/`off`), logs, assigns `self.state = state`, then calls
`announce_state()`. -/
def _set_state (s : GPIOSwitch) (state : Bool) : GPIOSwitch × List Event :=
  let pinEvents :=
    if s.mock_pins then
      (if state then [Event.driveLow s.pin] else [Event.driveHigh s.pin])
        ++ [Event.logDebug "%s:%s (dev-mode) = %s"]
    else
      (if state then [Event.pinOn s.pin] else [Event.pinOff s.pin])
        ++ [Event.logDebug "%s:%s (GPIO) = %s"]
  let s2 := { s with state := state }
  (s2, pinEvents ++ [Event.stateSet state] ++ s2.announce_state)

/-- `handle_command`: takes actions based on incoming commands. -/
def handle_command (s : GPIOSwitch) (payload : List Nat) : GPIOSwitch × List Event :=
  let dbg := Event.logDebug "%s.handle_command(%s)"
  if payload = bON then
    let r := s._set_state true
    (r.1, dbg :: r.2)
  else if payload = bOFF then
    let r := s._set_state false
    (r.1, dbg :: r.2)
  else
    (s, [dbg, Event.logWarning "%s.handle_command(%s) is weird - should match (ON|OFF)"])

/-- `__init__`: stores the constructor arguments, binds the pin
(mock factory pin when `mock_pins`, else `gpiozero.LED`), then calls
`announce_config()` followed by `_set_state(initial_state)`.  The interim
object before `_set_state` runs has no `state` attribute in Python and no
code path reads it; the placeholder `false` here is never observed. -/
def init (name : String) (pin : Nat) (qos : Nat) (initial_state : Bool)
    (mock_pins : Bool) : GPIOSwitch × List Event :=
  let s0 : GPIOSwitch :=
    { name := name, device_class := "switch", mqtt_qos := qos
    , mock_pins := mock_pins, pin := pin, state := false }
  let r := s0._set_state initial_state
  (r.1, s0.announce_config ++ r.2)

end GPIOSwitch

/-- Legacy `GPIOSwitch.handle_command` of the flat module `src/mqttgpio.py`
(lines 157-165).  Its unknown-payload branch evaluates
`LOG_OBJECT.WARN(...)`; `logging.Logger` objects have no attribute `WARN`
(the method is `warning`; `WARN` is only a module-level level constant),
so that branch raises `AttributeError` instead of logging.  The raise is
modelled with `Except.error`; the events emitted before it are paired with
the error. -/
def legacy_handle_command (s : GPIOSwitch) (payload : List Nat) :
    Except (String × List Event) (GPIOSwitch × List Event) :=
  let dbg := Event.logDebug "%s.handle_command(%s)"
  if payload = bON then
    let r := s._set_state true
    Except.ok (r.1, dbg :: r.2)
  else if payload = bOFF then
    let r := s._set_state false
    Except.ok (r.1, dbg :: r.2)
  else
    Except.error ("AttributeError: Logger object has no attribute WARN", [dbg])

/-- `mqtt_on_message` of `src/mqttgpio/__main__.py` (lines 74-83): scan
`ACTIVE_DEVICES` in order; for each device whose `command_topic()` equals
the message topic, log at info level and call `handle_command(payload)`,
setting `matched`.  Returns the updated device list, the emitted events
and the final `matched` flag.  (The legacy `on_message` of
`src/mqttgpio.py` lines 177-186 is line-for-line the same logic.) -/
def routeScan (devices : List GPIOSwitch) (topic : String) (payload : List Nat) :
    List GPIOSwitch × List Event × Bool :=
  match devices with
  | [] => ([], [], false)
  | d :: rest =>
    let tail := routeScan rest topic payload
    if topic = d.command_topic then
      let r := d.handle_command payload
      (r.1 :: tail.1, (Event.logInfo "Command to %s : %s" :: r.2) ++ tail.2.1, true)
    else
      (d :: tail.1, tail.2.1, tail.2.2)

/-- `mqtt_on_message`, after the scan: if no device matched and the topic
does not start with `$SYS`, log the unknown-device event at info level. -/
def mqtt_on_message (devices : List GPIOSwitch) (topic : String) (payload : List Nat) :
    List GPIOSwitch × List Event :=
  let r := routeScan devices topic payload
  if !r.2.2 && !(topic.startsWith "$SYS") then
    (r.1, r.2.1 ++ [Event.logInfo "Command for unknown device: %s=%s"])
  else
    (r.1, r.2.1)

/-- `mqtt_on_connect` of `src/mqttgpio/__main__.py` (lines 44-71).
`reason_code` is the numeric CONNACK reason-code id (the source computes it
as `reason_code.getId(str(reason_code))`).  If it is positive the callback
logs an error and raises `FailedToConnect`, reaching no subscribe call;
otherwise it logs at info level, subscribes to `$SYS/#` and then to every
active device's command topic.  The second component records whether the
callback raised. -/
def mqtt_on_connect (devices : List GPIOSwitch) (reason_code : Nat) :
    List Event × Bool :=
  if reason_code > 0 then
    ([Event.logError "Connection failed, reason code %s (%d)"], true)
  else
    ( Event.logInfo "Connected with reason code %s (%d)"
        :: Event.sub "$SYS/#"
        :: devices.map (fun d => Event.sub d.command_topic)
    , false )

/-- The numeric values of the Python `logging` level constants used by
`LOG_LEVELS` in `src/mqttgpio/__init__.py`. -/
def logging_DEBUG : Nat := 10

/-- `logging.INFO`. -/
def logging_INFO : Nat := 20

/-- `logging.WARNING`. -/
def logging_WARNING : Nat := 30

/-- `logging.ERROR`. -/
def logging_ERROR : Nat := 40

/-- Python `str.lower()`, restricted to ASCII (every character compared
against the `LOG_LEVELS` keys is ASCII): lowercase each character.
Structurally recursive over the character list so it evaluates in the
kernel, unlike `String.toLower`. -/
def pyLower (s : String) : String :=
  String.mk (s.data.map Char.toLower)

/-- Lookup in the `LOG_LEVELS` dict of `src/mqttgpio/__init__.py`:
`none` exactly when the key is not in the dict. -/
def LOG_LEVELS_find (k : String) : Option Nat :=
  if k = "info" then some logging_INFO
  else if k = "debug" then some logging_DEBUG
  else if k = "warning" then some logging_WARNING
  else if k = "error" then some logging_ERROR
  else none

/-- The logger-level part of `load_config` (`src/mqttgpio/__init__.py`
lines 21-38).  `logging_value` is `config.get("Default", "logging")`,
`none` when the key is absent (the source then uses the fallback
`"info"`).  Returns the level passed to `log_object.setLevel` together
with the log events emitted.  Config-file reading itself is the external
`ConfigParser` collaborator and is not modelled. -/
def load_config_level (logging_value : Option String) : Nat × List Event :=
  let LOG_LEVEL := logging_value.getD "info"
  let r : Nat × List Event :=
    match LOG_LEVELS_find (pyLower LOG_LEVEL) with
    | some lvl => (lvl, [])
    | none =>
      (logging_DEBUG,
        [Event.logDebug "Configuration file had a misconfigured logging setting (%s) - setting to DEBUG"])
  (r.1, r.2 ++ [Event.logInfo "Loaded configuration from: %s"])

/-- Scan to the closing quote of a JSON string (no escape sequences occur
in the payloads this program emits): the characters before the quote and
the remainder after it. -/
def takeUntilQuote : List Char → Option (List Char × List Char)
  | [] => none
  | c :: rest =>
    if c = Char.ofNat 34 then some ([], rest)
    else
      match takeUntilQuote rest with
      | some (s, r) => some (c :: s, r)
      | none => none

/-- Parse the pair list of a flat string-valued JSON object, after the
opening brace: `"k": "v"` pairs separated by `, `, terminated by the
closing brace.  `fuel` bounds the recursion by the input length. -/
def parsePairsAux : Nat → List Char → Option (List (String × String))
  | 0, _ => none
  | Nat.succ fuel, cs =>
    match cs with
    | c :: rest =>
      if c = Char.ofNat 34 then
        match takeUntilQuote rest with
        | some (key, r1) =>
          match r1 with
          | c1 :: c2 :: c3 :: r2 =>
            if c1 = Char.ofNat 58 ∧ c2 = Char.ofNat 32 ∧ c3 = Char.ofNat 34 then
              match takeUntilQuote r2 with
              | some (val, r3) =>
                match r3 with
                | [c4] =>
                  if c4 = Char.ofNat 125 then
                    some [(String.mk key, String.mk val)]
                  else none
                | c4 :: c5 :: r4 =>
                  if c4 = Char.ofNat 44 ∧ c5 = Char.ofNat 32 then
                    match parsePairsAux fuel r4 with
                    | some tail => some ((String.mk key, String.mk val) :: tail)
                    | none => none
                  else none
                | _ => none
              | none => none
            else none
          | _ => none
        | none => none
      else none
    | _ => none

/-- JSON parsing, restricted to the flat string-valued objects this
program emits (the grammar `json.dumps` produces for them): the inverse
direction of `jsonDumpsFlat`. -/
def jsonParseFlat (s : String) : Option (List (String × String)) :=
  match s.toList with
  | c :: rest =>
    if c = Char.ofNat 123 then
      match rest with
      | [c2] => if c2 = Char.ofNat 125 then some [] else none
      | _ => parsePairsAux rest.length rest
    else none
  | _ => none

/-- One external stimulus to a single switch after construction:
an inbound command payload, a scheduled `announce_state`, or a scheduled
`announce_config` (the three call sites in `src/mqttgpio/__main__.py`). -/
inductive SwitchOp where
  | cmd (payload : List Nat)
  | annState
  | annConfig
  deriving DecidableEq, Repr

/-- Apply one stimulus to a switch, yielding the updated switch and its
event trace. -/
def runOp (s : GPIOSwitch) : SwitchOp → GPIOSwitch × List Event
  | SwitchOp.cmd payload => s.handle_command payload
  | SwitchOp.annState => (s, s.announce_state)
  | SwitchOp.annConfig => (s, s.announce_config)

/-- Apply a sequence of stimuli, concatenating traces in order. -/
def runOps (s : GPIOSwitch) : List SwitchOp → GPIOSwitch × List Event
  | [] => (s, [])
  | op :: rest =>
    let r := runOp s op
    let r2 := runOps r.1 rest
    (r2.1, r.2 ++ r2.2)

/-- Equality of all publish-relevant fields of two switches: everything
except the `mock_pins` flag and the pin handle. -/
def obsEq (a b : GPIOSwitch) : Prop :=
  a.name = b.name ∧ a.device_class = b.device_class
    ∧ a.mqtt_qos = b.mqtt_qos ∧ a.state = b.state

example : (GPIOSwitch.init "office" 4 2 false true).1.state = false := by decide

example :
    jsonParseFlat "\x7b\"POWER\": \"ON\"\x7d" = some [("POWER", "ON")] := by decide

example :
    jsonParseFlat (GPIOSwitch.config_payload (GPIOSwitch.init "x" 4 2 true false).1) =
      some
        [ ("name", "x"), ("state_topic", "x/state"), ("command_topic", "x/cmnd")
        , ("val_tpl", "\x7b\x7bvalue_json.POWER\x7d\x7d") ] := by decide

/-- The concrete serialized form of the ON state payload. -/
theorem jsonDumps_POWER_ON :
    jsonDumpsFlat [("POWER", "ON")] = "\x7b\"POWER\": \"ON\"\x7d" := by decide

/-- The concrete serialized form of the OFF state payload. -/
theorem jsonDumps_POWER_OFF :
    jsonDumpsFlat [("POWER", "OFF")] = "\x7b\"POWER\": \"OFF\"\x7d" := by decide

/-- C1: for every constructed Switch and every prior state,
`handle_command(b"ON")` drives the pin to logical active, leaves the
`state` field true, and publishes exactly one state-announcement with JSON
payload `\x7b"POWER": "ON"\x7d` to the switch's state topic;
`handle_command(b"OFF")` is the exact dual. -/
theorem C1_handle_command_on_off (s : GPIOSwitch) :
    ((s.handle_command bON).1.state = true
      ∧ drivenLevels (s.handle_command bON).2 = [true]
      ∧ publishes (s.handle_command bON).2 =
          [Event.publish s.state_topic "\x7b\"POWER\": \"ON\"\x7d" s.mqtt_qos])
    ∧ ((s.handle_command bOFF).1.state = false
      ∧ drivenLevels (s.handle_command bOFF).2 = [false]
      ∧ publishes (s.handle_command bOFF).2 =
          [Event.publish s.state_topic "\x7b\"POWER\": \"OFF\"\x7d" s.mqtt_qos]) := by
  obtain ⟨name, dc, qos, mock, pin, st⟩ := s
  cases mock <;>
    simp [GPIOSwitch.handle_command, GPIOSwitch._set_state, GPIOSwitch.announce_state,
      GPIOSwitch._publish, GPIOSwitch.state_topic, GPIOSwitch.state_payload,
      GPIOSwitch.str_state, publishes, drivenLevels, jsonDumps_POWER_ON,
      jsonDumps_POWER_OFF, bON, bOFF]

/-- C2 (evaluation at the failing input): in the legacy flat module
`src/mqttgpio.py`, `handle_command` on the unrecognised payload
`b"TOGGLE"` raises `AttributeError` (its warning branch calls the
nonexistent `LOG_OBJECT.WARN`) instead of logging a warning, while the
packaged `src/mqttgpio/__init__.py` version on the same switch and payload
leaves the switch unchanged, publishes nothing, drives no pin, and only
logs the warning. -/
theorem C2_legacy_warn_crash :
    legacy_handle_command (GPIOSwitch.init "office" 4 2 false true).1 bTOGGLE =
      Except.error ("AttributeError: Logger object has no attribute WARN",
        [Event.logDebug "%s.handle_command(%s)"])
    ∧ GPIOSwitch.handle_command (GPIOSwitch.init "office" 4 2 false true).1 bTOGGLE =
        ((GPIOSwitch.init "office" 4 2 false true).1,
          [ Event.logDebug "%s.handle_command(%s)"
          , Event.logWarning "%s.handle_command(%s) is weird - should match (ON|OFF)" ]) :=
  ⟨rfl, rfl⟩

/-- C3: constructing a Switch performs exactly two publishes, in order:
first the config-announcement on `homeassistant/switch/\x7bname\x7d/config`, then
the state-announcement on `\x7bname\x7d/state` reflecting `initial_state`; the pin
is driven once, to `initial_state`, and the `state` field ends equal to
`initial_state`. -/
theorem C3_construction_publishes (name : String) (pin qos : Nat)
    (initial_state mock_pins : Bool) :
    publishes (GPIOSwitch.init name pin qos initial_state mock_pins).2 =
      [ Event.publish ("homeassistant/switch/" ++ name ++ "/config")
          (jsonDumpsFlat
            [ ("name", name), ("state_topic", name ++ "/state")
            , ("command_topic", name ++ "/cmnd")
            , ("val_tpl", "\x7b\x7bvalue_json.POWER\x7d\x7d") ]) qos
      , Event.publish (name ++ "/state")
          (if initial_state then "\x7b\"POWER\": \"ON\"\x7d" else "\x7b\"POWER\": \"OFF\"\x7d")
          qos ]
    ∧ drivenLevels (GPIOSwitch.init name pin qos initial_state mock_pins).2 =
        [initial_state]
    ∧ (GPIOSwitch.init name pin qos initial_state mock_pins).1.state = initial_state := by
  cases mock_pins <;> cases initial_state <;>
    simp [GPIOSwitch.init, GPIOSwitch.announce_config, GPIOSwitch._set_state,
      GPIOSwitch.announce_state, GPIOSwitch._publish, GPIOSwitch.config_topic,
      GPIOSwitch.state_topic, GPIOSwitch.command_topic, GPIOSwitch.config_payload,
      GPIOSwitch.state_payload, GPIOSwitch.str_state, publishes, drivenLevels,
      jsonDumps_POWER_ON, jsonDumps_POWER_OFF]

/-- C4: `_set_state(b)` always performs all three effects in this fixed
order: the trace splits as pin actuation, then the `state` assignment,
then the state-announcement publish; the pin part drives the pin exactly
once to `b` and publishes nothing, the part after the assignment drives no
pin and is exactly one publish whose payload already reflects `b`, and the
resulting object's `state` field is `b`. -/
theorem C4_set_state_order (s : GPIOSwitch) (b : Bool) :
    (∃ pre post,
      (s._set_state b).2 = pre ++ Event.stateSet b :: post
      ∧ drivenLevels pre = [b]
      ∧ publishes pre = []
      ∧ drivenLevels post = []
      ∧ publishes post =
          [Event.publish s.state_topic
            (if b then "\x7b\"POWER\": \"ON\"\x7d" else "\x7b\"POWER\": \"OFF\"\x7d")
            s.mqtt_qos])
    ∧ (s._set_state b).1.state = b := by
  obtain ⟨name, dc, qos, mock, pin, st⟩ := s
  refine ⟨?_, by simp [GPIOSwitch._set_state]⟩
  cases mock <;> cases b
  case false.false =>
    refine ⟨[Event.pinOff pin, Event.logDebug "%s:%s (GPIO) = %s"],
      [ Event.logDebug "%s.announce_state(%s)"
      , Event.publish (name ++ "/state") "\x7b\"POWER\": \"OFF\"\x7d" qos], ?_⟩
    simp [GPIOSwitch._set_state, GPIOSwitch.announce_state, GPIOSwitch._publish,
      GPIOSwitch.state_topic, GPIOSwitch.state_payload, GPIOSwitch.str_state,
      publishes, drivenLevels, jsonDumps_POWER_OFF]
  case false.true =>
    refine ⟨[Event.pinOn pin, Event.logDebug "%s:%s (GPIO) = %s"],
      [ Event.logDebug "%s.announce_state(%s)"
      , Event.publish (name ++ "/state") "\x7b\"POWER\": \"ON\"\x7d" qos], ?_⟩
    simp [GPIOSwitch._set_state, GPIOSwitch.announce_state, GPIOSwitch._publish,
      GPIOSwitch.state_topic, GPIOSwitch.state_payload, GPIOSwitch.str_state,
      publishes, drivenLevels, jsonDumps_POWER_ON]
  case true.false =>
    refine ⟨[Event.driveHigh pin, Event.logDebug "%s:%s (dev-mode) = %s"],
      [ Event.logDebug "%s.announce_state(%s)"
      , Event.publish (name ++ "/state") "\x7b\"POWER\": \"OFF\"\x7d" qos], ?_⟩
    simp [GPIOSwitch._set_state, GPIOSwitch.announce_state, GPIOSwitch._publish,
      GPIOSwitch.state_topic, GPIOSwitch.state_payload, GPIOSwitch.str_state,
      publishes, drivenLevels, jsonDumps_POWER_OFF]
  case true.true =>
    refine ⟨[Event.driveLow pin, Event.logDebug "%s:%s (dev-mode) = %s"],
      [ Event.logDebug "%s.announce_state(%s)"
      , Event.publish (name ++ "/state") "\x7b\"POWER\": \"ON\"\x7d" qos], ?_⟩
    simp [GPIOSwitch._set_state, GPIOSwitch.announce_state, GPIOSwitch._publish,
      GPIOSwitch.state_topic, GPIOSwitch.state_payload, GPIOSwitch.str_state,
      publishes, drivenLevels, jsonDumps_POWER_ON]

/-- C5: the payload `announce_state()` publishes, when JSON-parsed, has a
`POWER` field equal to `"ON"` when `state` is true and `"OFF"` when it is
false — exactly `str_state()`, the inverse mapping of the boolean state —
and `announce_state()`'s one publish carries that payload on the state
topic. -/
theorem C5_state_payload_roundtrip (s : GPIOSwitch) :
    jsonParseFlat s.state_payload =
      some [("POWER", if s.state then "ON" else "OFF")]
    ∧ s.str_state = (if s.state then "ON" else "OFF")
    ∧ publishes s.announce_state =
        [Event.publish s.state_topic s.state_payload s.mqtt_qos] := by
  obtain ⟨name, dc, qos, mock, pin, st⟩ := s
  refine ⟨?_, by simp [GPIOSwitch.str_state],
    by simp [GPIOSwitch.announce_state, GPIOSwitch._publish, publishes]⟩
  cases st <;>
    simp [GPIOSwitch.state_payload, GPIOSwitch.str_state] <;> decide

/-- `publishes` distributes over trace concatenation. -/
@[simp] theorem publishes_append (x y : List Event) :
    publishes (x ++ y) = publishes x ++ publishes y := by
  simp [publishes]

@[simp] theorem publishes_nil : publishes [] = [] := rfl

@[simp] theorem publishes_logDebug (m : String) (t : List Event) :
    publishes (Event.logDebug m :: t) = publishes t := rfl

@[simp] theorem publishes_logInfo (m : String) (t : List Event) :
    publishes (Event.logInfo m :: t) = publishes t := rfl

@[simp] theorem publishes_logWarning (m : String) (t : List Event) :
    publishes (Event.logWarning m :: t) = publishes t := rfl

@[simp] theorem publishes_logError (m : String) (t : List Event) :
    publishes (Event.logError m :: t) = publishes t := rfl

@[simp] theorem publishes_stateSet (b : Bool) (t : List Event) :
    publishes (Event.stateSet b :: t) = publishes t := rfl

@[simp] theorem publishes_pinOn (p : Nat) (t : List Event) :
    publishes (Event.pinOn p :: t) = publishes t := rfl

@[simp] theorem publishes_pinOff (p : Nat) (t : List Event) :
    publishes (Event.pinOff p :: t) = publishes t := rfl

@[simp] theorem publishes_driveLow (p : Nat) (t : List Event) :
    publishes (Event.driveLow p :: t) = publishes t := rfl

@[simp] theorem publishes_driveHigh (p : Nat) (t : List Event) :
    publishes (Event.driveHigh p :: t) = publishes t := rfl

@[simp] theorem publishes_sub (tp : String) (t : List Event) :
    publishes (Event.sub tp :: t) = publishes t := rfl

@[simp] theorem publishes_publish (tp pl : String) (q : Nat) (t : List Event) :
    publishes (Event.publish tp pl q :: t) =
      Event.publish tp pl q :: publishes t := rfl

/-- Characterization of the device scan in `mqtt_on_message`: each device
whose command topic equals the message topic is replaced by the result of
its `handle_command` and contributes its trace (after the info log); the
others are untouched and contribute nothing; `matched` is set exactly when
some device's command topic equals the topic. -/
theorem routeScan_eq (devices : List GPIOSwitch) (topic : String) (payload : List Nat) :
    routeScan devices topic payload =
      ( devices.map fun d =>
          if topic = d.command_topic then (d.handle_command payload).1 else d
      , (devices.map fun d =>
          if topic = d.command_topic then
            Event.logInfo "Command to %s : %s" :: (d.handle_command payload).2
          else []).flatten
      , devices.any fun d => topic = d.command_topic ) := by
  induction devices with
  | nil => simp [routeScan]
  | cons d rest ih =>
    by_cases h : topic = d.command_topic
    · subst h
      simp [routeScan, ih]
    · simp [routeScan, h, ih]

/-- C6: the message router calls `handle_command(payload)` on exactly the
registered Switches whose `command_topic()` equals the inbound topic by
string equality (their traces appear, each after an info log, and every
other Switch is left untouched with no trace), and appends the
unknown-device info log exactly when no Switch matched and the topic does
not start with `$SYS`; the router is a total function — an unmatched
message is never an error. -/
theorem C6_message_routing (devices : List GPIOSwitch) (topic : String)
    (payload : List Nat) :
    (mqtt_on_message devices topic payload).1 =
      (devices.map fun d =>
        if topic = d.command_topic then (d.handle_command payload).1 else d)
    ∧ (mqtt_on_message devices topic payload).2 =
        (devices.map fun d =>
          if topic = d.command_topic then
            Event.logInfo "Command to %s : %s" :: (d.handle_command payload).2
          else []).flatten
        ++ (if !(devices.any fun d => topic = d.command_topic)
              && !(topic.startsWith "$SYS") then
              [Event.logInfo "Command for unknown device: %s=%s"]
            else []) := by
  constructor
  · simp only [mqtt_on_message, routeScan_eq]
    split <;> rfl
  · simp only [mqtt_on_message, routeScan_eq]
    split <;> simp

/-- C8: the CONNACK callback raises `FailedToConnect` exactly when the
reason code is non-zero, and in that case performs no subscriptions; on a
success code it does not raise and subscribes to `$SYS/#` and then to
every registered device's command topic. -/
theorem C8_on_connect_escalates (devices : List GPIOSwitch) (rc : Nat) :
    ((mqtt_on_connect devices rc).2 = true ↔ 0 < rc)
    ∧ (0 < rc → subscribes (mqtt_on_connect devices rc).1 = [])
    ∧ (rc = 0 → subscribes (mqtt_on_connect devices rc).1 =
        Event.sub "$SYS/#" :: devices.map fun d => Event.sub d.command_topic) := by
  refine ⟨?_, ?_, ?_⟩
  · by_cases h : rc > 0 <;> simp [mqtt_on_connect, h]
  · intro h
    simp [mqtt_on_connect, h, subscribes]
  · intro h
    subst h
    have hmap : List.filter (fun e => match e with | Event.sub _ => true | _ => false)
        (devices.map fun d => Event.sub d.command_topic) =
        devices.map fun d => Event.sub d.command_topic := by
      refine List.filter_eq_self.mpr ?_
      intro a ha
      obtain ⟨d, _, rfl⟩ := List.mem_map.mp ha
      rfl
    simp [mqtt_on_connect, subscribes, hmap]

/-- Closed instantiation of `C8_on_connect_escalates`: at reason code 5
with no devices the callback raises and subscribes to nothing. -/
theorem C8_on_connect_escalates_witness :
    (mqtt_on_connect [] 5).2 = true ∧ subscribes (mqtt_on_connect [] 5).1 = [] :=
  ⟨(C8_on_connect_escalates [] 5).1.mpr (by decide),
   (C8_on_connect_escalates [] 5).2.1 (by decide)⟩

/-- `handle_command` never changes the `name` or `device_class` fields. -/
theorem handle_command_name_dc (s : GPIOSwitch) (payload : List Nat) :
    (s.handle_command payload).1.name = s.name
    ∧ (s.handle_command payload).1.device_class = s.device_class := by
  by_cases h1 : payload = bON
  · simp [GPIOSwitch.handle_command, GPIOSwitch._set_state, h1, bON, bOFF]
  · by_cases h2 : payload = bOFF
    · simp [GPIOSwitch.handle_command, GPIOSwitch._set_state, h1, h2, bON, bOFF]
    · simp [GPIOSwitch.handle_command, h1, h2]

/-- No stimulus sequence changes the `name` or `device_class` fields. -/
theorem runOps_name_dc (s : GPIOSwitch) (ops : List SwitchOp) :
    (runOps s ops).1.name = s.name
    ∧ (runOps s ops).1.device_class = s.device_class := by
  induction ops generalizing s with
  | nil => simp [runOps]
  | cons op rest ih =>
    have h : (runOp s op).1.name = s.name
        ∧ (runOp s op).1.device_class = s.device_class := by
      cases op with
      | cmd payload => exact handle_command_name_dc s payload
      | annState => simp [runOp]
      | annConfig => simp [runOp]
    have h2 := ih (runOp s op).1
    exact ⟨by simp [runOps]; rw [h2.1, h.1], by simp [runOps]; rw [h2.2, h.2]⟩

/-- C7: `config_topic()`, `state_topic()` and `command_topic()` are pure
functions of `name` (with the `device_class` constant `"switch"` fixed at
construction), returning exactly `homeassistant/switch/\x7bname\x7d/config`,
`\x7bname\x7d/state` and `\x7bname\x7d/cmnd`, and they return those same strings
after any sequence of commands and announcements following construction. -/
theorem C7_topics_pure (name : String) (pin qos : Nat) (init mock : Bool)
    (ops : List SwitchOp) :
    (GPIOSwitch.init name pin qos init mock).1.config_topic =
      "homeassistant/switch/" ++ name ++ "/config"
    ∧ (GPIOSwitch.init name pin qos init mock).1.state_topic = name ++ "/state"
    ∧ (GPIOSwitch.init name pin qos init mock).1.command_topic = name ++ "/cmnd"
    ∧ (runOps (GPIOSwitch.init name pin qos init mock).1 ops).1.config_topic =
        "homeassistant/switch/" ++ name ++ "/config"
    ∧ (runOps (GPIOSwitch.init name pin qos init mock).1 ops).1.state_topic =
        name ++ "/state"
    ∧ (runOps (GPIOSwitch.init name pin qos init mock).1 ops).1.command_topic =
        name ++ "/cmnd" := by
  have hs : (GPIOSwitch.init name pin qos init mock).1.name = name
      ∧ (GPIOSwitch.init name pin qos init mock).1.device_class = "switch" := by
    simp [GPIOSwitch.init, GPIOSwitch._set_state]
  have hr := runOps_name_dc (GPIOSwitch.init name pin qos init mock).1 ops
  refine ⟨?_, ?_, ?_, ?_, ?_, ?_⟩ <;>
    simp [GPIOSwitch.config_topic, GPIOSwitch.state_topic, GPIOSwitch.command_topic,
      hs.1, hs.2, hr.1, hr.2]

/-- The publish of `_set_state` is determined by the state topic, the
commanded value and the QoS — never by `mock_pins` — and the updated
object only changes `state`. -/
theorem publishes_set_state (s : GPIOSwitch) (b : Bool) :
    publishes (s._set_state b).2 =
      [Event.publish s.state_topic
        (if b then "\x7b\"POWER\": \"ON\"\x7d" else "\x7b\"POWER\": \"OFF\"\x7d") s.mqtt_qos]
    ∧ (s._set_state b).1 = { s with state := b } := by
  refine ⟨?_, by simp [GPIOSwitch._set_state]⟩
  cases hm : s.mock_pins <;> cases b <;>
    simp [GPIOSwitch._set_state, GPIOSwitch.announce_state, GPIOSwitch._publish,
      GPIOSwitch.state_payload, GPIOSwitch.state_topic, GPIOSwitch.str_state, hm,
      jsonDumps_POWER_ON, jsonDumps_POWER_OFF]

/-- One stimulus preserves `obsEq` and produces the same publish events on
either side of it. -/
theorem runOp_obsEq (a b : GPIOSwitch) (h : obsEq a b) (op : SwitchOp) :
    obsEq (runOp a op).1 (runOp b op).1
    ∧ publishes (runOp a op).2 = publishes (runOp b op).2 := by
  obtain ⟨hn, hd, hq, hs⟩ := h
  cases op with
  | cmd payload =>
    by_cases h1 : payload = bON
    · refine ⟨?_, ?_⟩ <;>
        simp [runOp, GPIOSwitch.handle_command, h1, bON, bOFF,
          (publishes_set_state a true).1, (publishes_set_state a true).2,
          (publishes_set_state b true).1, (publishes_set_state b true).2,
          GPIOSwitch.state_topic, obsEq, hn, hd, hq]
    · by_cases h2 : payload = bOFF
      · refine ⟨?_, ?_⟩ <;>
          simp [runOp, GPIOSwitch.handle_command, h1, h2, bON, bOFF,
            (publishes_set_state a false).1, (publishes_set_state a false).2,
            (publishes_set_state b false).1, (publishes_set_state b false).2,
            GPIOSwitch.state_topic, obsEq, hn, hd, hq]
      · refine ⟨?_, ?_⟩
        · simpa [runOp, GPIOSwitch.handle_command, h1, h2, obsEq]
            using ⟨hn, hd, hq, hs⟩
        · simp [runOp, GPIOSwitch.handle_command, h1, h2]
  | annState =>
    refine ⟨⟨hn, hd, hq, hs⟩, ?_⟩
    simp [runOp, GPIOSwitch.announce_state, GPIOSwitch._publish,
      GPIOSwitch.state_topic, GPIOSwitch.state_payload, GPIOSwitch.str_state,
      hn, hq, hs]
  | annConfig =>
    refine ⟨⟨hn, hd, hq, hs⟩, ?_⟩
    simp [runOp, GPIOSwitch.announce_config, GPIOSwitch._publish,
      GPIOSwitch.config_topic, GPIOSwitch.config_payload, GPIOSwitch.state_topic,
      GPIOSwitch.command_topic, hn, hd, hq]

/-- A stimulus sequence preserves `obsEq` and produces the same publish
events on either side of it. -/
theorem runOps_obsEq (a b : GPIOSwitch) (h : obsEq a b) (ops : List SwitchOp) :
    obsEq (runOps a ops).1 (runOps b ops).1
    ∧ publishes (runOps a ops).2 = publishes (runOps b ops).2 := by
  induction ops generalizing a b with
  | nil => exact ⟨h, rfl⟩
  | cons op rest ih =>
    have h1 := runOp_obsEq a b h op
    have h2 := ih (runOp a op).1 (runOp b op).1 h1.1
    exact ⟨by simpa [runOps] using h2.1,
      by simp [runOps, publishes_append, h1.2, h2.2]⟩

/-- C9: for every identical sequence of construction, command handling
and announcement calls, the published MQTT messages (topics, payloads and
QoS) are identical whether the switch was constructed with
`mock_pins = true` or `mock_pins = false`: the mock path's inverted pin
polarity is never visible in any published payload. -/
theorem C9_mock_pins_invisible (name : String) (pin qos : Nat) (init : Bool)
    (ops : List SwitchOp) :
    publishes (GPIOSwitch.init name pin qos init true).2 =
      publishes (GPIOSwitch.init name pin qos init false).2
    ∧ publishes (runOps (GPIOSwitch.init name pin qos init true).1 ops).2 =
        publishes (runOps (GPIOSwitch.init name pin qos init false).1 ops).2 := by
  have hobs : obsEq (GPIOSwitch.init name pin qos init true).1
      (GPIOSwitch.init name pin qos init false).1 := by
    simp [GPIOSwitch.init, GPIOSwitch._set_state, obsEq]
  refine ⟨?_, (runOps_obsEq _ _ hobs ops).2⟩
  cases init <;>
    simp [GPIOSwitch.init, GPIOSwitch.announce_config, GPIOSwitch._set_state,
      GPIOSwitch.announce_state, GPIOSwitch._publish, GPIOSwitch.config_topic,
      GPIOSwitch.config_payload, GPIOSwitch.state_topic, GPIOSwitch.command_topic,
      GPIOSwitch.state_payload, GPIOSwitch.str_state]

/-- C10: the logger-level selection of `load_config`: absent key defaults
to info; a present value is lowercased and, when it is one of `info`,
`debug`, `warning`, `error`, sets the corresponding level with no extra
message; any other value sets DEBUG and logs one debug message — in every
case `load_config` proceeds to its final info log and returns. -/
theorem C10_load_config_level (v : String) :
    load_config_level none =
      (logging_INFO, [Event.logInfo "Loaded configuration from: %s"])
    ∧ (pyLower v = "info" → load_config_level (some v) =
        (logging_INFO, [Event.logInfo "Loaded configuration from: %s"]))
    ∧ (pyLower v = "debug" → load_config_level (some v) =
        (logging_DEBUG, [Event.logInfo "Loaded configuration from: %s"]))
    ∧ (pyLower v = "warning" → load_config_level (some v) =
        (logging_WARNING, [Event.logInfo "Loaded configuration from: %s"]))
    ∧ (pyLower v = "error" → load_config_level (some v) =
        (logging_ERROR, [Event.logInfo "Loaded configuration from: %s"]))
    ∧ (pyLower v ≠ "info" → pyLower v ≠ "debug" → pyLower v ≠ "warning" →
        pyLower v ≠ "error" → load_config_level (some v) =
        (logging_DEBUG,
          [ Event.logDebug
              "Configuration file had a misconfigured logging setting (%s) - setting to DEBUG"
          , Event.logInfo "Loaded configuration from: %s" ])) := by
  refine ⟨by decide, ?_, ?_, ?_, ?_, ?_⟩ <;>
    intros <;>
    simp_all [load_config_level, LOG_LEVELS_find]

/-- Closed instantiation of `C10_load_config_level`: the value `WARNING`
lowercases to `warning` and selects level 30; the value `trace` selects
DEBUG with the misconfiguration message. -/
theorem C10_load_config_level_witness :
    load_config_level (some "WARNING") =
      (logging_WARNING, [Event.logInfo "Loaded configuration from: %s"])
    ∧ load_config_level (some "trace") =
        (logging_DEBUG,
          [ Event.logDebug
              "Configuration file had a misconfigured logging setting (%s) - setting to DEBUG"
          , Event.logInfo "Loaded configuration from: %s" ]) :=
  ⟨(C10_load_config_level "WARNING").2.2.2.1 (by decide),
   (C10_load_config_level "trace").2.2.2.2.2 (by decide) (by decide) (by decide)
     (by decide)⟩

example : pyLower "WARNING" = "warning" := by decide
example :
    publishes (GPIOSwitch.init "x" 4 2 true false).2 =
      [ Event.publish "homeassistant/switch/x/config"
          (GPIOSwitch.config_payload (GPIOSwitch.init "x" 4 2 true false).1) 2
      , Event.publish "x/state" "\x7b\"POWER\": \"ON\"\x7d" 2 ] := by decide
